import Mathlib

/-!
Shallow embedding of the soup-kitchen inventory recorder
(`src/components/InventoryRecorder.tsx` and `src/services/apiService.ts`).

JavaScript runtime values that flow through item fields are modelled by
`JSVal` (strings, finite numbers as rationals, `NaN`, booleans,
`undefined`).  Stateful React code is modelled by explicit state passing
on `SessionState`; the `summary` field is recomputed by the state
operations that change `items`, modelling the `useEffect` that keeps the
derived summary in sync once the event-loop turn settles.
-/

/-- A JavaScript value as it can appear in an inventory-item field.
Finite numbers are rationals; `nan` is the IEEE NaN produced by failed
numeric coercions. -/
inductive JSVal where
  | str : String → JSVal
  | num : ℚ → JSVal
  | nan : JSVal
  | boolV : Bool → JSVal
  | undef : JSVal
deriving DecidableEq, Repr

/-- The fields of `InventoryItem` (`src/types.ts`), i.e. the possible
values of `keyof InventoryItem` accepted by `handleUpdateItem`. -/
inductive ItemField where
  | id | category | donorName | customDonorText | description
  | weightLbs | quantity | expirationDate
deriving DecidableEq, Repr

/-- Definition of `InventoryItem` from `src/types.ts`.  Every field holds a `JSVal`
because `handleUpdateItem(id, field, value)` takes `value: any`. -/
structure InventoryItem where
  id : JSVal
  category : JSVal
  donorName : JSVal
  customDonorText : JSVal
  description : JSVal
  weightLbs : JSVal
  quantity : JSVal
  expirationDate : JSVal
deriving DecidableEq, Repr

/-- Definition of `{ ...item, [field]: value }` — replace one named field. -/
def setField (it : InventoryItem) : ItemField → JSVal → InventoryItem
  | .id, v => { it with id := v }
  | .category, v => { it with category := v }
  | .donorName, v => { it with donorName := v }
  | .customDonorText, v => { it with customDonorText := v }
  | .description, v => { it with description := v }
  | .weightLbs, v => { it with weightLbs := v }
  | .quantity, v => { it with quantity := v }
  | .expirationDate, v => { it with expirationDate := v }

/-- Read one named field of an item. -/
def getField (it : InventoryItem) : ItemField → JSVal
  | .id => it.id
  | .category => it.category
  | .donorName => it.donorName
  | .customDonorText => it.customDonorText
  | .description => it.description
  | .weightLbs => it.weightLbs
  | .quantity => it.quantity
  | .expirationDate => it.expirationDate

/-- Definition of `Summary` from `src/types.ts`. -/
structure Summary where
  totalItems : ℚ
  totalWeightLbs : ℚ
deriving DecidableEq, Repr

def isDigitCh (c : Char) : Bool := '0' ≤ c && c ≤ '9'

def digitsToNat (cs : List Char) : Nat :=
  cs.foldl (fun a c => a * 10 + (c.toNat - '0'.toNat)) 0

/-- Value of an integer part `d1` and fractional digits `d2`,
as in the decimal literal `d1.d2`. -/
def decimalValue (d1 d2 : List Char) : ℚ :=
  (digitsToNat d1 : ℚ) + (digitsToNat d2 : ℚ) / ((10 : ℚ) ^ d2.length)

def isLowerCh (c : Char) : Bool := 'a' ≤ c && c ≤ 'z'

def isSpaceCh (c : Char) : Bool :=
  c = ' ' || c = '\t' || c = '\n' || c = '\r'

/-- Definition of `toLowerCase()` restricted to ASCII letters, the alphabet this
code's unit tokens use. -/
def jsToLower (c : Char) : Char :=
  if 'A' ≤ c && c ≤ 'Z' then Char.ofNat (c.toNat + 32) else c

/-- Definition of `trim()`: strip whitespace from both ends. -/
def jsTrim (cs : List Char) : List Char :=
  ((cs.dropWhile isSpaceCh).reverse.dropWhile isSpaceCh).reverse

/-- Definition of `Number(s)` on a plain decimal string: `some q` when `s` (after
trimming) is `[+-]?digits[.digits]` or `.digits`, `some 0` on the empty
string, `none` (NaN) otherwise.  Exotic numeric syntaxes (hex,
exponents, `Infinity`) are not needed by this codebase's inputs. -/
def numOfDecimalString (s : String) : Option ℚ :=
  let parse : List Char → Option ℚ := fun cs =>
    let p1 := cs.span isDigitCh
    match p1.2 with
    | [] => if p1.1 = [] then none else some (decimalValue p1.1 [])
    | '.' :: r2 =>
      let p2 := r2.span isDigitCh
      if p2.2 = [] && !(p1.1 = [] && p2.1 = []) then
        some (decimalValue p1.1 p2.1)
      else none
    | _ => none
  let t := jsTrim s.data
  match t with
  | [] => some 0
  | '-' :: rest => (parse rest).map (fun q => -q)
  | '+' :: rest => parse rest
  | _ => parse t

/-- Definition of `Number(v) || 0`: numeric coercion with NaN (and falsy results)
collapsed to `0`. -/
def toNumOr0 : JSVal → ℚ
  | .num q => q
  | .nan => 0
  | .str s => (numOfDecimalString s).getD 0
  | .boolV b => if b then 1 else 0
  | .undef => 0

/-- The summary reduction from the `useEffect` at
`InventoryRecorder.tsx:90-100`:
`totalItems += Number(quantity) || 0`,
`totalWeightLbs += (Number(weightLbs) || 0) * (Number(quantity) || 0)`. -/
def computeSummary (items : List InventoryItem) : Summary :=
  items.foldl
    (fun acc it =>
      { totalItems := acc.totalItems + toNumOr0 it.quantity,
        totalWeightLbs :=
          acc.totalWeightLbs + toNumOr0 it.weightLbs * toNumOr0 it.quantity })
    { totalItems := 0, totalWeightLbs := 0 }

/-- Definition of `isFieldEmpty` (`InventoryRecorder.tsx:309-317`): strings are empty
iff trimmed empty; numbers iff `<= 0.001` (NaN compares false, hence not
empty); otherwise emptiness is falsiness. -/
def isFieldEmpty : JSVal → Bool
  | .str s => jsTrim s.data = []
  | .num q => q ≤ (0.001 : ℚ)
  | .nan => false
  | .boolV b => !b
  | .undef => true

/-- The per-item contribution to `getIncompleteFields`
(`InventoryRecorder.tsx:319-332`): description, category, donorName,
customDonorText (only under the custom sentinel), weightLbs,
expirationDate.  Quantity is never checked. -/
def itemIncompleteCount (it : InventoryItem) : Nat :=
  (if isFieldEmpty it.description then 1 else 0) +
  (if isFieldEmpty it.category then 1 else 0) +
  (if isFieldEmpty it.donorName then 1 else 0) +
  (if it.donorName = .str "custom" && isFieldEmpty it.customDonorText then 1 else 0) +
  (if isFieldEmpty it.weightLbs then 1 else 0) +
  (if isFieldEmpty it.expirationDate then 1 else 0)

/-- Definition of `getIncompleteFields`: fold the per-item counts over the collection. -/
def getIncompleteFields (items : List InventoryItem) : Nat :=
  items.foldl (fun n it => n + itemIncompleteCount it) 0

/-- Definition of `allFieldsComplete = incompleteFieldsCount === 0`
(`InventoryRecorder.tsx:334-335`). -/
def allFieldsComplete (items : List InventoryItem) : Bool :=
  getIncompleteFields items = 0

/-- One attempt of `/(\d+\.?\d*)\s*([a-z]+)/` anchored at the head of
`cs`: greedily take digits, an optional dot with following digits, then
whitespace, then at least one lowercase letter.  For this pattern the
greedy parse agrees with the JavaScript backtracking engine: every
shorter choice of `\d+`, `\.?` or `\d*` leaves a digit or dot in front
of `[a-z]+`, which cannot match. -/
def matchNumberUnitAt (cs : List Char) :
    Option ((List Char × List Char) × String) :=
  let p1 := cs.span isDigitCh
  if p1.1 = [] then none else
  let frac :=
    match p1.2 with
    | '.' :: r => ((r.span isDigitCh).1, (r.span isDigitCh).2)
    | _ => ([], p1.2)
  let rest := frac.2.dropWhile isSpaceCh
  let p3 := rest.span isLowerCh
  if p3.1 = [] then none
  else some ((p1.1, frac.1), String.mk p3.1)

/-- Leftmost match of `/(\d+\.?\d*)\s*([a-z]+)/`: try every start
position from the left.  The captured number is kept as its integer and
fraction digit strings; `parseFloat` on capture 1 is `decimalValue`. -/
def findNumberUnit : List Char → Option ((List Char × List Char) × String)
  | [] => none
  | c :: rest =>
    match matchNumberUnitAt (c :: rest) with
    | some r => some r
    | none => findNumberUnit rest

/-- The unit cases of the `switch` in `parseProductWeight`
(`InventoryRecorder.tsx:123-161`): pounds per unit. -/
def unitTable : List (String × ℚ) :=
  [("g", 0.00220462), ("gram", 0.00220462), ("grams", 0.00220462),
   ("kg", 2.20462), ("kilogram", 2.20462), ("kilograms", 2.20462),
   ("oz", 0.0625), ("ounce", 0.0625), ("ounces", 0.0625),
   ("lb", 1), ("lbs", 1), ("pound", 1), ("pounds", 1),
   ("ml", 0.00220462), ("milliliter", 0.00220462), ("milliliters", 0.00220462),
   ("l", 2.20462), ("liter", 2.20462), ("liters", 2.20462),
   ("fl", 0.0652), ("floz", 0.0652)]

/-- Look the unit token up in the switch table; `none` is the `default`
branch that makes `parseProductWeight` return 0. -/
def unitToPounds (u : String) : Option ℚ :=
  (unitTable.find? (fun p => p.1 == u)).map (fun p => p.2)

/-- Definition of `Math.round(x)`: round half toward positive infinity. -/
def jsRound (x : ℚ) : ℤ := ⌊x + 1 / 2⌋

/-- Definition of `Math.round(x * 100) / 100` — round to 2 decimal places. -/
def round2 (x : ℚ) : ℚ := (jsRound (x * 100) : ℚ) / 100

/-- Definition of `parseProductWeight` (`InventoryRecorder.tsx:111-166`): guard the
falsy input, lowercase and trim, find the first number/unit pair,
convert via the unit table, round to 2 decimals; `0` when no pair is
found or the unit is unrecognized. -/
def parseProductWeight (quantityString : String) : ℚ :=
  if quantityString = "" then 0 else
  let q := jsTrim (quantityString.data.map jsToLower)
  match findNumberUnit q with
  | none => 0
  | some p =>
    match unitToPounds p.2 with
    | none => 0
    | some m => round2 (decimalValue p.1.1 p.1.2 * m)

/-- Definition of `CATEGORIES` from `src/constants.ts`. -/
def CATEGORIES : List String :=
  ["Canned Goods", "Fresh Produce", "Dairy", "Meat", "Bakery", "Frozen",
   "Pantry Staples", "Beverages", "Snacks", "Other"]

/-- Definition of `DONORS` from `src/constants.ts`. -/
def DONORS : List String :=
  ["Ridley\x27s", "Perkins", "Safeway", "UW Catering", "Training Table",
   "Bagelmakers", "Little Caesar\x27s", "Insomnia Cookies", "Sinclair Gas",
   "Bread Depot", "Ivinson Memorial Hospital (IMH)",
   "Early Childhood Education Ctr", "custom"]

/-- Definition of `VoiceAnalysisResult` as the voice merge consumes it: `quantity` and
`donorName` are optional on the wire (§6 enrichment contract). -/
structure VoiceAnalysisResult where
  itemName : String
  category : String
  estimatedWeightLbs : ℚ
  quantity : Option ℚ
  donorName : Option String
deriving DecidableEq, Repr

/-- Definition of `ImageAnalysisResult` from `src/types.ts`. -/
structure ImageAnalysisResult where
  description : String
  category : String
  weightLbs : ℚ
deriving DecidableEq, Repr

/-- Definition of `ProductInfo` from `InventoryRecorder.tsx:13-19`. -/
structure ProductInfo where
  name : String
  brand : Option String
  category : Option String
  weight : Option String
  barcode : String
deriving DecidableEq, Repr

/-- One `handleUpdateItem(id, field, value)` call at the items level
(`InventoryRecorder.tsx:72-78`): map over the list, replacing the named
field of every item whose `id` matches. -/
def updateItems (l : List InventoryItem) (id : JSVal) (f : ItemField)
    (v : JSVal) : List InventoryItem :=
  l.map (fun it => if it.id = id then setField it f v else it)

/-- A sequence of `handleUpdateItem` calls against one target id. -/
def applyUpdates (l : List InventoryItem) (id : JSVal)
    (us : List (ItemField × JSVal)) : List InventoryItem :=
  us.foldl (fun acc u => updateItems acc id u.1 u.2) l

/-- The same sequence of field writes applied to a single item. -/
def applyItemUpdates (it : InventoryItem)
    (us : List (ItemField × JSVal)) : InventoryItem :=
  us.foldl (fun acc u => setField acc u.1 u.2) it

/-- The `handleUpdateItem` calls issued by `handleVoiceSuccess`
(`InventoryRecorder.tsx:204-238`) for a given result: description and
weight always; category with the known-set-or-Other fallback; quantity
only when supplied, truthy and greater than 1; donor only when supplied
and truthy — a known non-custom donor verbatim, any other non-blank
name via the custom sentinel. -/
def voiceUpdates (r : VoiceAnalysisResult) : List (ItemField × JSVal) :=
  [(.description, .str r.itemName),
   (.weightLbs, .num r.estimatedWeightLbs),
   (.category, .str (if r.category ∈ CATEGORIES then r.category else "Other"))]
  ++ (match r.quantity with
      | some q => if q ≠ 0 ∧ q > 1 then [(.quantity, .num q)] else []
      | none => [])
  ++ (match r.donorName with
      | some d =>
        if d = "" then []
        else if d ∈ DONORS.filter (fun x => decide (x ≠ "custom")) then
          [(.donorName, .str d)]
        else if (jsTrim d.data).length > 0 then
          [(.donorName, .str "custom"), (.customDonorText, .str d)]
        else []
      | none => [])

/-- The `handleUpdateItem` calls issued by `handleImageSuccess`
(`InventoryRecorder.tsx:240-253`). -/
def imageUpdates (r : ImageAnalysisResult) : List (ItemField × JSVal) :=
  [(.description, .str r.description),
   (.weightLbs, .num r.weightLbs),
   (.category, .str (if r.category ∈ CATEGORIES then r.category else "Other"))]

/-- The `handleUpdateItem` calls issued by `handleBarcodeSuccess`
(`InventoryRecorder.tsx:175-202`): description from brand and name;
category from the known-set-or-Other fallback (a missing or falsy
category also falls back to Other); weight only when a truthy weight
string parses to a value greater than zero. -/
def barcodeUpdates (p : ProductInfo) : List (ItemField × JSVal) :=
  [(.description, .str
      (match p.brand with
       | some b => if b = "" then p.name else b ++ " - " ++ p.name
       | none => p.name)),
   (.category, .str
      (match p.category with
       | some c => if c ≠ "" ∧ c ∈ CATEGORIES then c else "Other"
       | none => "Other"))]
  ++ (match p.weight with
      | some w =>
        if w = "" then []
        else if parseProductWeight w > 0 then
          [(.weightLbs, .num (parseProductWeight w))]
        else []
      | none => [])

/-- The per-item processing flags, modelling the JS object
`processingItems` keyed by item id. -/
def ProcFlags : Type := JSVal → Option Bool

/-- Definition of `{...prev, [itemId]: isProcessing}` (`setItemProcessing`,
`InventoryRecorder.tsx:102-107`). -/
def setFlag (m : ProcFlags) (id : JSVal) (b : Bool) : ProcFlags :=
  fun k => if k = id then some b else m k

/-- Definition of `delete newState[id]` (`InventoryRecorder.tsx:83-87`). -/
def eraseFlag (m : ProcFlags) (id : JSVal) : ProcFlags :=
  fun k => if k = id then none else m k

/-- The recorder state owned by `InventoryRecorder`
(`InventoryRecorder.tsx:30-44`), restricted to the session core.
`statusMessage` carries `(isSuccess, text)`. -/
structure SessionState where
  items : List InventoryItem
  summary : Summary
  formId : String
  activeItemIndex : Option Nat
  isLoading : Bool
  statusMessage : Option (Bool × String)
  processingItems : ProcFlags
  toastMessage : Option String

/-- Definition of `getNewItem` (`InventoryRecorder.tsx:46-59`); the generated uuid and
the computed today+30d date string are passed in explicitly. -/
def getNewItem (uuid : String) (expiration : String) : InventoryItem :=
  { id := .str uuid, category := .str "", donorName := .str "",
    customDonorText := .str "", description := .str "",
    weightLbs := .num 0, quantity := .num 1,
    expirationDate := .str expiration }

/-- Definition of `handleAddItem` (`InventoryRecorder.tsx:61-63`), with the summary
recomputation of the `useEffect` folded in as the settled state. -/
def handleAddItem (s : SessionState) (uuid expiration : String) :
    SessionState :=
  let l := s.items ++ [getNewItem uuid expiration]
  { s with items := l, summary := computeSummary l }

/-- Definition of `handleUpdateItem` at the session level (`InventoryRecorder.tsx:72-78`),
with the settled summary. -/
def handleUpdateItem (s : SessionState) (id : JSVal) (f : ItemField)
    (v : JSVal) : SessionState :=
  let l := updateItems s.items id f v
  { s with items := l, summary := computeSummary l }

/-- Definition of `handleDeleteItem` (`InventoryRecorder.tsx:80-88`): filter the item
out and drop its processing-flag entry; settled summary folded in. -/
def handleDeleteItem (s : SessionState) (id : JSVal) : SessionState :=
  let l := s.items.filter (fun it => decide (it.id ≠ id))
  { s with items := l, summary := computeSummary l,
           processingItems := eraseFlag s.processingItems id }

/-- Definition of `handleOpenModal` (`InventoryRecorder.tsx:168-173`), restricted to
the session core: record the tapped card's index. -/
def openEnrichmentTarget (s : SessionState) (index : Nat) : SessionState :=
  { s with activeItemIndex := some index }

/-- Shared shape of the three success handlers: resolve the current
item BY POSITION from `activeItemIndex`, then issue the kind-specific
`handleUpdateItem` calls against that item's id; return the state
unchanged when the index is unset or out of range. -/
def mergeAt (s : SessionState) (us : List (ItemField × JSVal)) :
    SessionState :=
  match s.activeItemIndex with
  | none => s
  | some i =>
    match s.items[i]? with
    | none => s
    | some currentItem =>
      let l := applyUpdates s.items currentItem.id us
      { s with items := l, summary := computeSummary l }

/-- Definition of `handleVoiceSuccess` (`InventoryRecorder.tsx:204-238`). -/
def mergeVoiceResult (s : SessionState) (r : VoiceAnalysisResult) :
    SessionState :=
  mergeAt s (voiceUpdates r)

/-- Definition of `handleImageSuccess` (`InventoryRecorder.tsx:240-253`). -/
def mergeImageResult (s : SessionState) (r : ImageAnalysisResult) :
    SessionState :=
  mergeAt s (imageUpdates r)

/-- Definition of `handleBarcodeSuccess` (`InventoryRecorder.tsx:175-202`). -/
def mergeBarcodeResult (s : SessionState) (p : ProductInfo) :
    SessionState :=
  mergeAt s (barcodeUpdates p)

/-- Outcome of an Enrichment Client call. -/
inductive EnrichOutcome where
  | success
  | failure (msg : String)

/-- Definition of `handleVoiceProcess` (`InventoryRecorder.tsx:256-277`) as the state
transform observed once the promise settles: resolve the target (throw
paths leave the state untouched), set its flag, and in a `finally`
clear the flag on success and failure alike; a failure additionally
posts the toast.  Item fields are never written here. -/
def runVoiceEnrichment (s : SessionState) (outcome : EnrichOutcome) :
    SessionState :=
  match s.activeItemIndex with
  | none => s
  | some i =>
    match s.items[i]? with
    | none => s
    | some currentItem =>
      let flags := setFlag (setFlag s.processingItems currentItem.id true)
        currentItem.id false
      match outcome with
      | .success => { s with processingItems := flags }
      | .failure msg =>
        { s with processingItems := flags,
                 toastMessage := some ("Voice analysis failed: " ++ msg) }

/-- Definition of `handleImageProcess` (`InventoryRecorder.tsx:279-300`), same shape
as the voice run. -/
def runImageEnrichment (s : SessionState) (outcome : EnrichOutcome) :
    SessionState :=
  match s.activeItemIndex with
  | none => s
  | some i =>
    match s.items[i]? with
    | none => s
    | some currentItem =>
      let flags := setFlag (setFlag s.processingItems currentItem.id true)
        currentItem.id false
      match outcome with
      | .success => { s with processingItems := flags }
      | .failure msg =>
        { s with processingItems := flags,
                 toastMessage := some ("Photo analysis failed: " ++ msg) }

/-- The JSON body built by `submitInventoryToN8n`
(`src/services/apiService.ts:76-85`). -/
structure SubmissionPayload where
  formId : String
  submissionDate : String
  summary : Summary
  items : List InventoryItem
deriving DecidableEq, Repr

/-- Definition of `{...item, donorName: item.donorName === 'custom' ?
item.customDonorText : item.donorName}`. -/
def resolveDonor (it : InventoryItem) : InventoryItem :=
  { it with donorName :=
      if it.donorName = .str "custom" then it.customDonorText
      else it.donorName }

/-- The payload `submitInventoryToN8n(items, summary, formId)` posts,
with `new Date().toISOString()` passed in as `now`. -/
def buildSubmissionPayload (items : List InventoryItem) (summary : Summary)
    (formId : String) (now : String) : SubmissionPayload :=
  { formId := formId, submissionDate := now, summary := summary,
    items := items.map resolveDonor }

/-- The payload `handleSubmit` (`InventoryRecorder.tsx:337-357`) hands
to the Submission Client: the state's `items`, `summary` and `formId`
at call time. -/
def handleSubmitPayload (s : SessionState) (now : String) :
    SubmissionPayload :=
  buildSubmissionPayload s.items s.summary s.formId now

/-- Definition of `handleSubmit` success path, observed after the 3s reset timeout
fires: `items` becomes one fresh default item (summary settles
accordingly), the transient status message has been cleared again, and
`isLoading` is false.  `formId` and `processingItems` are not written. -/
def handleSubmitSuccess (s : SessionState) (uuid expiration : String) :
    SessionState :=
  let l := [getNewItem uuid expiration]
  { s with items := l, summary := computeSummary l,
           statusMessage := none, isLoading := false }

/-- Definition of `handleSubmit` failure path: record the error text as the status
message and drop the loading flag; nothing else is written. -/
def handleSubmitFailure (s : SessionState) (msg : String) : SessionState :=
  { s with statusMessage := some (false, msg), isLoading := false }

/-- Definition of `disabled={isLoading || items.length === 0}`
(`InventoryRecorder.tsx:467`). -/
def submitDisabled (s : SessionState) : Bool :=
  s.isLoading || s.items.length = 0

/-! ### Helper lemmas -/

/-- The ids of a collection, in display order. -/
def itemIds (l : List InventoryItem) : List JSVal :=
  l.map (fun it => it.id)

lemma getIncompleteFields_go (l : List InventoryItem) (n : Nat) :
    l.foldl (fun n it => n + itemIncompleteCount it) n
      = n + (l.map itemIncompleteCount).sum := by
  induction l generalizing n with
  | nil => simp
  | cons a l ih => simp [List.foldl_cons, ih, Nat.add_assoc]

lemma getIncompleteFields_eq_sum (l : List InventoryItem) :
    getIncompleteFields l = (l.map itemIncompleteCount).sum := by
  simpa using getIncompleteFields_go l 0

lemma computeSummary_go (l : List InventoryItem) (a : Summary) :
    l.foldl
      (fun acc it =>
        { totalItems := acc.totalItems + toNumOr0 it.quantity,
          totalWeightLbs :=
            acc.totalWeightLbs + toNumOr0 it.weightLbs * toNumOr0 it.quantity })
      a
      = { totalItems := a.totalItems + (l.map (fun it => toNumOr0 it.quantity)).sum,
          totalWeightLbs := a.totalWeightLbs
            + (l.map (fun it => toNumOr0 it.weightLbs * toNumOr0 it.quantity)).sum } := by
  induction l generalizing a with
  | nil => simp
  | cons x l ih => simp [List.foldl_cons, ih, add_assoc]

lemma computeSummary_eq_sum (l : List InventoryItem) :
    computeSummary l
      = { totalItems := (l.map (fun it => toNumOr0 it.quantity)).sum,
          totalWeightLbs :=
            (l.map (fun it => toNumOr0 it.weightLbs * toNumOr0 it.quantity)).sum } := by
  simpa [computeSummary] using computeSummary_go l { totalItems := 0, totalWeightLbs := 0 }

lemma setField_id_of_ne (it : InventoryItem) (f : ItemField) (v : JSVal)
    (h : f ≠ ItemField.id) : (setField it f v).id = it.id := by
  cases f <;> first | exact absurd rfl h | rfl

lemma getField_setField_same (it : InventoryItem) (f : ItemField) (v : JSVal) :
    getField (setField it f v) f = v := by
  cases f <;> rfl

lemma getField_setField_ne (it : InventoryItem) (f f' : ItemField) (v : JSVal)
    (h : f' ≠ f) : getField (setField it f v) f' = getField it f' := by
  cases f <;> cases f' <;> first | exact absurd rfl h | rfl

lemma setField_getField (it : InventoryItem) (f : ItemField) :
    setField it f (getField it f) = it := by
  cases it; cases f <;> rfl

lemma updateItems_getElem? (l : List InventoryItem) (id : JSVal)
    (f : ItemField) (v : JSVal) (j : Nat) :
    (updateItems l id f v)[j]?
      = (l[j]?).map (fun it => if it.id = id then setField it f v else it) := by
  simp [updateItems, List.getElem?_map]

lemma updateItems_frame (l : List InventoryItem) (id : JSVal)
    (f : ItemField) (v : JSVal) (j : Nat) (it : InventoryItem)
    (hj : l[j]? = some it) (hid : it.id ≠ id) :
    (updateItems l id f v)[j]? = some it := by
  simp [updateItems_getElem?, hj, hid]

lemma updateItems_of_not_found (l : List InventoryItem) (id : JSVal)
    (f : ItemField) (v : JSVal) (h : ∀ it ∈ l, it.id ≠ id) :
    updateItems l id f v = l := by
  unfold updateItems
  refine (List.map_congr_left ?_).trans (List.map_id' l)
  intro it hit
  simp [h it hit]

lemma applyItemUpdates_nil (it : InventoryItem) :
    applyItemUpdates it [] = it := rfl

lemma applyItemUpdates_cons (it : InventoryItem) (u : ItemField × JSVal)
    (us : List (ItemField × JSVal)) :
    applyItemUpdates it (u :: us) = applyItemUpdates (setField it u.1 u.2) us := rfl

lemma applyItemUpdates_id (it : InventoryItem) (us : List (ItemField × JSVal))
    (h : ∀ u ∈ us, u.1 ≠ ItemField.id) :
    (applyItemUpdates it us).id = it.id := by
  induction us generalizing it with
  | nil => rfl
  | cons u us ih =>
    rw [applyItemUpdates_cons, ih _ (fun w hw => h w (List.mem_cons_of_mem u hw)),
      setField_id_of_ne _ _ _ (h u (List.mem_cons_self u us))]

lemma applyUpdates_eq_map (us : List (ItemField × JSVal))
    (l : List InventoryItem) (id : JSVal)
    (h : ∀ u ∈ us, u.1 ≠ ItemField.id) :
    applyUpdates l id us
      = l.map (fun it => if it.id = id then applyItemUpdates it us else it) := by
  induction us generalizing l with
  | nil =>
    simp [applyUpdates, applyItemUpdates]
  | cons u us ih =>
    have hu : u.1 ≠ ItemField.id := h u (List.mem_cons_self u us)
    have hus : ∀ w ∈ us, w.1 ≠ ItemField.id :=
      fun w hw => h w (List.mem_cons_of_mem u hw)
    have step : applyUpdates l id (u :: us)
        = applyUpdates (updateItems l id u.1 u.2) id us := rfl
    rw [step, ih _ hus]
    unfold updateItems
    rw [List.map_map]
    refine List.map_congr_left ?_
    intro it _
    by_cases hit : it.id = id
    · have hset : (setField it u.1 u.2).id = it.id := setField_id_of_ne _ _ _ hu
      simp [Function.comp, hit, hset, applyItemUpdates_cons]
    · simp [Function.comp, hit]

lemma itemIds_updateItems (l : List InventoryItem) (id : JSVal)
    (f : ItemField) (v : JSVal) (hf : f ≠ ItemField.id) :
    itemIds (updateItems l id f v) = itemIds l := by
  unfold itemIds updateItems
  rw [List.map_map]
  refine List.map_congr_left ?_
  intro it _
  by_cases hit : it.id = id
  · simp [Function.comp, hit, setField_id_of_ne _ _ _ hf]
  · simp [Function.comp, hit]

lemma itemIds_applyUpdates (l : List InventoryItem) (id : JSVal)
    (us : List (ItemField × JSVal)) (h : ∀ u ∈ us, u.1 ≠ ItemField.id) :
    itemIds (applyUpdates l id us) = itemIds l := by
  rw [applyUpdates_eq_map us l id h]
  unfold itemIds
  rw [List.map_map]
  refine List.map_congr_left ?_
  intro it _
  by_cases hit : it.id = id
  · simp [Function.comp, hit, applyItemUpdates_id it us h]
  · simp [Function.comp, hit]

lemma filter_idem (p : InventoryItem → Bool) (l : List InventoryItem) :
    (l.filter p).filter p = l.filter p := by
  induction l with
  | nil => rfl
  | cons a l ih =>
    by_cases h : p a <;> simp [List.filter_cons, h, ih]

lemma eraseFlag_idem (m : ProcFlags) (id : JSVal) :
    eraseFlag (eraseFlag m id) id = eraseFlag m id := by
  funext k
  by_cases h : k = id <;> simp [eraseFlag, h]

lemma imageUpdates_not_id (r : ImageAnalysisResult) :
    ∀ u ∈ imageUpdates r, u.1 ≠ ItemField.id := by
  intro u hu
  unfold imageUpdates at hu
  simp only [List.mem_cons, List.not_mem_nil, or_false] at hu
  rcases hu with rfl | rfl | rfl <;> simp

lemma voiceUpdates_not_id (r : VoiceAnalysisResult) :
    ∀ u ∈ voiceUpdates r, u.1 ≠ ItemField.id := by
  intro u hu
  unfold voiceUpdates at hu
  rcases List.mem_append.mp hu with h12 | h3
  · rcases List.mem_append.mp h12 with h1 | h2
    · simp only [List.mem_cons, List.not_mem_nil, or_false] at h1
      rcases h1 with rfl | rfl | rfl <;> simp
    · rcases hq : r.quantity with _ | q
      · rw [hq] at h2; dsimp only [] at h2; simp at h2
      · rw [hq] at h2; dsimp only [] at h2
        by_cases hc : q ≠ 0 ∧ q > 1
        · rw [if_pos hc] at h2
          simp only [List.mem_cons, List.not_mem_nil, or_false] at h2
          rcases h2 with rfl; simp
        · rw [if_neg hc] at h2; simp at h2
  · rcases hd : r.donorName with _ | d
    · rw [hd] at h3; dsimp only [] at h3; simp at h3
    · rw [hd] at h3; dsimp only [] at h3
      by_cases h0 : d = ""
      · rw [if_pos h0] at h3; simp at h3
      · rw [if_neg h0] at h3
        by_cases h1 : d ∈ DONORS.filter (fun x => decide (x ≠ "custom"))
        · rw [if_pos h1] at h3
          simp only [List.mem_cons, List.not_mem_nil, or_false] at h3
          rcases h3 with rfl; simp
        · rw [if_neg h1] at h3
          by_cases h2 : (jsTrim d.data).length > 0
          · rw [if_pos h2] at h3
            simp only [List.mem_cons, List.not_mem_nil, or_false] at h3
            rcases h3 with rfl | rfl <;> simp
          · rw [if_neg h2] at h3; simp at h3

lemma barcodeUpdates_not_id (p : ProductInfo) :
    ∀ u ∈ barcodeUpdates p, u.1 ≠ ItemField.id := by
  intro u hu
  unfold barcodeUpdates at hu
  rcases List.mem_append.mp hu with h1 | h2
  · simp only [List.mem_cons, List.not_mem_nil, or_false] at h1
    rcases h1 with rfl | rfl <;> simp
  · rcases hw : p.weight with _ | w
    · rw [hw] at h2; dsimp only [] at h2; simp at h2
    · rw [hw] at h2; dsimp only [] at h2
      by_cases h0 : w = ""
      · rw [if_pos h0] at h2; simp at h2
      · rw [if_neg h0] at h2
        by_cases h1 : parseProductWeight w > 0
        · rw [if_pos h1] at h2
          simp only [List.mem_cons, List.not_mem_nil, or_false] at h2
          rcases h2 with rfl; simp
        · rw [if_neg h1] at h2; simp at h2

lemma decimalValue_nonneg (d1 d2 : List Char) : 0 ≤ decimalValue d1 d2 := by
  unfold decimalValue
  positivity

lemma unitTable_nonneg : ∀ p ∈ unitTable, 0 ≤ p.2 := by
  intro p hp
  fin_cases hp <;> norm_num

lemma unitToPounds_nonneg (u : String) (m : ℚ)
    (h : unitToPounds u = some m) : 0 ≤ m := by
  unfold unitToPounds at h
  rcases Option.map_eq_some'.mp h with ⟨p, hf, hpm⟩
  rw [← hpm]
  exact unitTable_nonneg p (List.mem_of_find?_eq_some hf)

lemma round2_shape (x : ℚ) : ∃ n : ℤ, round2 x = (n : ℚ) / 100 :=
  ⟨jsRound (x * 100), rfl⟩

lemma round2_nonneg (x : ℚ) (hx : 0 ≤ x) : 0 ≤ round2 x := by
  unfold round2 jsRound
  have h1 : (0 : ℚ) ≤ x * 100 + 1 / 2 := by positivity
  have h2 : (0 : ℤ) ≤ ⌊x * 100 + 1 / 2⌋ := Int.floor_nonneg.mpr h1
  have h3 : (0 : ℚ) ≤ (⌊x * 100 + 1 / 2⌋ : ℚ) := by exact_mod_cast h2
  exact div_nonneg h3 (by norm_num)

lemma parseProductWeight_shape (s : String) :
    0 ≤ parseProductWeight s ∧ ∃ n : ℤ, parseProductWeight s = (n : ℚ) / 100 := by
  unfold parseProductWeight
  by_cases h0 : s = ""
  · rw [if_pos h0]
    exact ⟨le_refl 0, 0, by norm_num⟩
  · rw [if_neg h0]
    dsimp only []
    rcases hm : findNumberUnit (jsTrim (s.data.map jsToLower)) with _ | r
    · exact ⟨le_refl 0, 0, by norm_num⟩
    · dsimp only []
      rcases hu : unitToPounds r.2 with _ | m
      · exact ⟨le_refl 0, 0, by norm_num⟩
      · dsimp only []
        exact ⟨round2_nonneg _
            (mul_nonneg (decimalValue_nonneg _ _) (unitToPounds_nonneg _ _ hu)),
          round2_shape _⟩

/-! ### Claim theorems -/

/-- An item whose description and category are blank while every other
checked field is filled. -/
def twoGapsItem : InventoryItem :=
  { id := .str "v1", category := .str "", donorName := .str "Perkins",
    customDonorText := .str "", description := .str "",
    weightLbs := .num 2, quantity := .num 1,
    expirationDate := .str "2026-01-01" }

/-- The two items of the spec's worked summary example:
`{weightLbs: 2, quantity: 3}` and `{weightLbs: 0.5, quantity: 10}`. -/
def summaryExampleA : InventoryItem :=
  { id := .str "s1", category := .str "Dairy", donorName := .str "Perkins",
    customDonorText := .str "", description := .str "milk",
    weightLbs := .num 2, quantity := .num 3,
    expirationDate := .str "2026-01-01" }

def summaryExampleB : InventoryItem :=
  { id := .str "s2", category := .str "Bakery", donorName := .str "Safeway",
    customDonorText := .str "", description := .str "rolls",
    weightLbs := .num 0.5, quantity := .num 10,
    expirationDate := .str "2026-01-01" }

/-- C5: `computeSummary` is a pure total reduction over `items`:
`totalItems` sums the quantities and `totalWeightLbs` sums
`weightLbs × quantity`, with non-numeric or missing values coerced to 0;
the empty collection yields `{0, 0}`; and the spec's worked example
`[{weightLbs: 2, quantity: 3}, {weightLbs: 0.5, quantity: 10}]` yields
`{totalItems: 13, totalWeightLbs: 11}`. -/
theorem claim_C5_computeSummary :
    computeSummary [] = { totalItems := 0, totalWeightLbs := 0 }
    ∧ (∀ l : List InventoryItem,
        computeSummary l
          = { totalItems := (l.map (fun it => toNumOr0 it.quantity)).sum,
              totalWeightLbs :=
                (l.map (fun it =>
                  toNumOr0 it.weightLbs * toNumOr0 it.quantity)).sum })
    ∧ toNumOr0 .nan = 0
    ∧ toNumOr0 .undef = 0
    ∧ toNumOr0 (.str "not a number") = 0
    ∧ computeSummary [summaryExampleA, summaryExampleB]
        = { totalItems := 13, totalWeightLbs := 11 } := by
  refine ⟨rfl, computeSummary_eq_sum, rfl, rfl, rfl, ?_⟩
  norm_num [computeSummary, summaryExampleA, summaryExampleB, toNumOr0,
    Summary.mk.injEq]

/-- C7: `isFieldEmpty` classifies strings by trimmed emptiness, numbers
by the 0.001 epsilon cutoff, and other values by falsiness;
`getIncompleteFields` sums the empty fields among description, category,
donorName, customDonorText (only under the custom sentinel), weightLbs
and expirationDate over all items, never counting quantity; one item
with only description and category empty counts 2. -/
theorem claim_C7_validator :
    (∀ s : String, isFieldEmpty (.str s) = decide (jsTrim s.data = []))
    ∧ (∀ q : ℚ, isFieldEmpty (.num q) = decide (q ≤ 0.001))
    ∧ isFieldEmpty (.num 0.001) = true
    ∧ isFieldEmpty (.num 0.0011) = false
    ∧ isFieldEmpty (.num 0) = true
    ∧ (∀ b : Bool, isFieldEmpty (.boolV b) = !b)
    ∧ isFieldEmpty .undef = true
    ∧ (∀ l : List InventoryItem,
        getIncompleteFields l = (l.map itemIncompleteCount).sum)
    ∧ (∀ it v, itemIncompleteCount (setField it .quantity v)
        = itemIncompleteCount it)
    ∧ (∀ it v, it.donorName ≠ .str "custom" →
        itemIncompleteCount (setField it .customDonorText v)
          = itemIncompleteCount it)
    ∧ (∀ it, it.donorName = .str "custom" → isFieldEmpty it.customDonorText →
        1 ≤ itemIncompleteCount it)
    ∧ getIncompleteFields [twoGapsItem] = 2 := by
  refine ⟨fun s => rfl, fun q => rfl, by norm_num [isFieldEmpty],
    by norm_num [isFieldEmpty], by norm_num [isFieldEmpty],
    fun b => rfl, rfl, getIncompleteFields_eq_sum, fun it v => rfl,
    ?_, ?_, ?_⟩
  · intro it v h
    simp [itemIncompleteCount, setField, h]
  · intro it h1 h2
    have : (if it.donorName = .str "custom" && isFieldEmpty it.customDonorText
        then 1 else 0) = 1 := by
      simp [h1, h2]
    unfold itemIncompleteCount
    omega
  · norm_num [getIncompleteFields, itemIncompleteCount, isFieldEmpty,
      twoGapsItem]
    decide

/-- C8: `parseProductWeight` finds the first number/unit pair
(case-insensitively), returns 0 when no pair is found or the unit is
unrecognized, always produces a non-negative multiple of 1/100 (the
2-decimal rounding), and maps "500 g" to 1.10 (within the spec's
±0.01), "16 oz" to exactly 1, "garbage" to 0 and "" to 0. -/
theorem claim_C8_parseWeight :
    (∀ s : String, 0 ≤ parseProductWeight s
      ∧ ∃ n : ℤ, parseProductWeight s = (n : ℚ) / 100)
    ∧ parseProductWeight "500 g" = 1.10
    ∧ |parseProductWeight "500 g" - 1.10| ≤ 0.01
    ∧ parseProductWeight "16 oz" = 1
    ∧ parseProductWeight "16 OZ" = 1
    ∧ parseProductWeight "garbage" = 0
    ∧ parseProductWeight "" = 0
    ∧ parseProductWeight "5 zorks" = 0 := by
  have h500 : parseProductWeight "500 g" = 1.10 := by
    have h1 : parseProductWeight "500 g"
        = round2 (decimalValue ['5', '0', '0'] [] * (0.00220462 : ℚ)) := rfl
    have h2 : decimalValue ['5', '0', '0'] [] = 500 := by
      have hd : digitsToNat ['5', '0', '0'] = 500 := by decide
      norm_num [decimalValue, hd, show digitsToNat [] = 0 from rfl]
    rw [h1, h2]
    norm_num [round2, jsRound]
  have h16 : parseProductWeight "16 oz" = 1 := by
    have h1 : parseProductWeight "16 oz"
        = round2 (decimalValue ['1', '6'] [] * (0.0625 : ℚ)) := rfl
    have h2 : decimalValue ['1', '6'] [] = 16 := by
      have hd : digitsToNat ['1', '6'] = 16 := by decide
      norm_num [decimalValue, hd, show digitsToNat [] = 0 from rfl]
    rw [h1, h2]
    norm_num [round2, jsRound]
  have h16u : parseProductWeight "16 OZ" = 1 := by
    have h1 : parseProductWeight "16 OZ"
        = round2 (decimalValue ['1', '6'] [] * (0.0625 : ℚ)) := rfl
    have h2 : decimalValue ['1', '6'] [] = 16 := by
      have hd : digitsToNat ['1', '6'] = 16 := by decide
      norm_num [decimalValue, hd, show digitsToNat [] = 0 from rfl]
    rw [h1, h2]
    norm_num [round2, jsRound]
  refine ⟨parseProductWeight_shape, h500, ?_, h16, h16u, rfl, rfl, rfl⟩
  rw [h500]
  norm_num

/-- C9: `updateField(id, field, value)` replaces only the named field of
the item matching `id`: that item's other fields and every other item
are untouched, an absent `id` leaves the collection unchanged (and the
total function never throws), and rewriting a field with its current
value leaves the collection equal. -/
theorem claim_C9_updateField :
    (∀ (l : List InventoryItem) (id : JSVal) (f : ItemField) (v : JSVal)
        (j : Nat) (it : InventoryItem), l[j]? = some it → it.id = id →
        (updateItems l id f v)[j]? = some (setField it f v))
    ∧ (∀ (l : List InventoryItem) (id : JSVal) (f : ItemField) (v : JSVal)
        (j : Nat) (it : InventoryItem), l[j]? = some it → it.id ≠ id →
        (updateItems l id f v)[j]? = some it)
    ∧ (∀ (it : InventoryItem) (f : ItemField) (v : JSVal) (f' : ItemField),
        f' ≠ f → getField (setField it f v) f' = getField it f')
    ∧ (∀ (it : InventoryItem) (f : ItemField) (v : JSVal),
        getField (setField it f v) f = v)
    ∧ (∀ (l : List InventoryItem) (id : JSVal) (f : ItemField) (v : JSVal),
        (∀ it ∈ l, it.id ≠ id) → updateItems l id f v = l)
    ∧ (∀ (l : List InventoryItem) (f : ItemField) (it : InventoryItem),
        (itemIds l).Nodup → it ∈ l →
        updateItems l it.id f (getField it f) = l)
    ∧ (∀ (l : List InventoryItem) (id : JSVal) (f : ItemField) (v : JSVal),
        (updateItems l id f v).length = l.length) := by
  refine ⟨?_, ?_, fun it f v g h => getField_setField_ne it f g v h,
    getField_setField_same, updateItems_of_not_found, ?_, ?_⟩
  · intro l id f v j it hj hit
    simp [updateItems_getElem?, hj, hit]
  · intro l id f v j it hj hit
    exact updateItems_frame l id f v j it hj hit
  · intro l f it hnodup hit
    unfold updateItems
    refine (List.map_congr_left ?_).trans (List.map_id' l)
    intro x hx
    by_cases h : x.id = it.id
    · have hxi : x = it := List.inj_on_of_nodup_map hnodup hx hit h
      subst hxi
      simp [setField_getField]
    · simp [h]
  · intro l id f v
    simp [updateItems]

/-- Two default items with distinct ids, used as concrete fixtures. -/
def wItemA : InventoryItem := getNewItem "a" "2026-01-01"

def wItemB : InventoryItem := getNewItem "b" "2026-01-01"

/-- C9 witness: the update laws evaluated on a concrete two-item
collection. -/
theorem claim_C9_updateField_witness :
    (updateItems [wItemA, wItemB] (.str "a") .description (.str "x"))[0]?
      = some (setField wItemA .description (.str "x"))
    ∧ (updateItems [wItemA, wItemB] (.str "a") .description (.str "x"))[1]?
      = some wItemB
    ∧ updateItems [wItemA, wItemB] (.str "zzz") .description (.str "x")
      = [wItemA, wItemB]
    ∧ updateItems [wItemA, wItemB] wItemA.id .description
        (getField wItemA .description) = [wItemA, wItemB] :=
  ⟨claim_C9_updateField.1 [wItemA, wItemB] (.str "a") .description (.str "x")
      0 wItemA rfl (by decide),
   claim_C9_updateField.2.1 [wItemA, wItemB] (.str "a") .description (.str "x")
      1 wItemB rfl (by decide),
   claim_C9_updateField.2.2.2.2.1 [wItemA, wItemB] (.str "zzz") .description
      (.str "x") (by decide),
   claim_C9_updateField.2.2.2.2.2.1 [wItemA, wItemB] .description wItemA
      (by decide) (List.mem_cons_self wItemA [wItemB])⟩

/-- The everywhere-empty processing-flag map of a fresh session. -/
def emptyFlags : ProcFlags := fun _ => none

/-- A session holding one incomplete default item, not loading. -/
def gateState : SessionState :=
  { items := [wItemA], summary := computeSummary [wItemA], formId := "SK1",
    activeItemIndex := none, isLoading := false, statusMessage := none,
    processingItems := emptyFlags, toastMessage := none }

/-- C2 counterexample: with one incomplete default item and no request
in flight, the completeness indicator reports incomplete fields while
the submit button is still enabled — submission is not blocked by the
per-item completeness check. -/
theorem claim_C2_counterexample :
    allFieldsComplete gateState.items = false
    ∧ submitDisabled gateState = false := by
  constructor
  · norm_num [allFieldsComplete, gateState, getIncompleteFields,
      itemIncompleteCount, isFieldEmpty, wItemA, getNewItem]
  · rfl

/-- C2 (amended): `allFieldsComplete` is true iff every item passes the
per-item completeness check, but the submit action is disabled exactly
when a submission is loading or the collection is empty — incomplete
fields do not block submission. -/
theorem claim_C2_submitGate :
    (∀ l : List InventoryItem,
        allFieldsComplete l = true ↔ ∀ it ∈ l, itemIncompleteCount it = 0)
    ∧ (∀ s : SessionState,
        submitDisabled s = false ↔ (s.isLoading = false ∧ s.items ≠ [])) := by
  constructor
  · intro l
    simp [allFieldsComplete, getIncompleteFields_eq_sum, List.sum_eq_zero_iff]
  · intro s
    simp [submitDisabled, List.length_eq_zero]

/-- C2 witness: the amended gate applied to the concrete session. -/
theorem claim_C2_submitGate_witness : submitDisabled gateState = false :=
  (claim_C2_submitGate.2 gateState).mpr ⟨rfl, List.cons_ne_nil wItemA []⟩

/-- A flag map in which item "x" is still marked processing. -/
def busyFlags : ProcFlags := fun k => if k = .str "x" then some true else none

/-- A loading session with a processing flag still set. -/
def busyState : SessionState :=
  { items := [wItemA], summary := computeSummary [wItemA], formId := "SK7",
    activeItemIndex := none, isLoading := true, statusMessage := none,
    processingItems := busyFlags, toastMessage := none }

/-- C3 counterexample: after a successful submission the processing-flag
map still carries the entry that was set before the call — the success
path does not clear processing flags. -/
theorem claim_C3_counterexample :
    (handleSubmitSuccess busyState "n1" "2026-02-01").processingItems
      (.str "x") = some true := rfl

/-- C3 (amended): successful submission resets `items` to one fresh
default item (after the user-visible delay), clears the status message
and the loading flag, and regenerates neither `formId` nor the
processing-flag map (the flags are left unchanged, not cleared); failed
submission records the error message, drops the loading flag, and leaves
items, summary, formId, processing flags, and the rest of the state
unchanged so the user can retry. -/
theorem claim_C3_submitPaths :
    ∀ (s : SessionState) (uuid expiration msg : String),
      ((handleSubmitSuccess s uuid expiration).items
          = [getNewItem uuid expiration]
        ∧ (handleSubmitSuccess s uuid expiration).formId = s.formId
        ∧ (handleSubmitSuccess s uuid expiration).processingItems
            = s.processingItems
        ∧ (handleSubmitSuccess s uuid expiration).isLoading = false
        ∧ (handleSubmitSuccess s uuid expiration).statusMessage = none)
      ∧ ((handleSubmitFailure s msg).statusMessage = some (false, msg)
        ∧ (handleSubmitFailure s msg).items = s.items
        ∧ (handleSubmitFailure s msg).summary = s.summary
        ∧ (handleSubmitFailure s msg).formId = s.formId
        ∧ (handleSubmitFailure s msg).processingItems = s.processingItems
        ∧ (handleSubmitFailure s msg).activeItemIndex = s.activeItemIndex
        ∧ (handleSubmitFailure s msg).toastMessage = s.toastMessage
        ∧ (handleSubmitFailure s msg).isLoading = false) :=
  fun _ _ _ _ =>
    ⟨⟨rfl, rfl, rfl, rfl, rfl⟩, ⟨rfl, rfl, rfl, rfl, rfl, rfl, rfl, rfl⟩⟩

/-- A session whose enrichment target resolves to the first item. -/
def enrichState : SessionState :=
  { items := [wItemA], summary := computeSummary [wItemA], formId := "SK4",
    activeItemIndex := some 0, isLoading := false, statusMessage := none,
    processingItems := emptyFlags, toastMessage := none }

/-- C4: when an enrichment run's client call fails, every item field
keeps its pre-call value and the target item's processing flag is false
once the call settles; the flag is cleared by the finally-equivalent
step on the success path too. -/
theorem claim_C4_enrichmentFailure :
    ∀ (s : SessionState) (i : Nat) (cur : InventoryItem) (msg : String),
      s.activeItemIndex = some i → s.items[i]? = some cur →
      ((runVoiceEnrichment s (.failure msg)).items = s.items
        ∧ (runVoiceEnrichment s (.failure msg)).processingItems cur.id
            = some false
        ∧ (runVoiceEnrichment s .success).processingItems cur.id = some false
        ∧ (runImageEnrichment s (.failure msg)).items = s.items
        ∧ (runImageEnrichment s (.failure msg)).processingItems cur.id
            = some false
        ∧ (runImageEnrichment s .success).processingItems cur.id
            = some false) := by
  intro s i cur msg h1 h2
  refine ⟨?_, ?_, ?_, ?_, ?_, ?_⟩ <;>
    simp [runVoiceEnrichment, runImageEnrichment, h1, h2, setFlag]

/-- C4 witness: a failing voice run on a concrete session leaves the
single item untouched and its flag false. -/
theorem claim_C4_enrichmentFailure_witness :
    (runVoiceEnrichment enrichState (.failure "boom")).items
      = enrichState.items
    ∧ (runVoiceEnrichment enrichState (.failure "boom")).processingItems
        wItemA.id = some false :=
  ⟨(claim_C4_enrichmentFailure enrichState 0 wItemA "boom" rfl rfl).1,
   (claim_C4_enrichmentFailure enrichState 0 wItemA "boom" rfl rfl).2.1⟩

/-- C6: the payload handed to the Submission Client carries `formId`,
the supplied submission date, the summary equal to `computeSummary` over
the items at call time (the stored summary is the derived one), and the
items with the custom donor sentinel resolved to `customDonorText`
before the call, all other fields and all non-custom donors unchanged. -/
theorem claim_C6_submissionPayload :
    ∀ (s : SessionState) (now : String),
      s.summary = computeSummary s.items →
      (handleSubmitPayload s now).formId = s.formId
      ∧ (handleSubmitPayload s now).submissionDate = now
      ∧ (handleSubmitPayload s now).summary = computeSummary s.items
      ∧ (handleSubmitPayload s now).items.length = s.items.length
      ∧ (∀ (j : Nat) (it : InventoryItem), s.items[j]? = some it →
          (handleSubmitPayload s now).items[j]? = some (resolveDonor it)
          ∧ (resolveDonor it).donorName
              = (if it.donorName = .str "custom" then it.customDonorText
                 else it.donorName)
          ∧ (resolveDonor it).id = it.id
          ∧ (resolveDonor it).category = it.category
          ∧ (resolveDonor it).customDonorText = it.customDonorText
          ∧ (resolveDonor it).description = it.description
          ∧ (resolveDonor it).weightLbs = it.weightLbs
          ∧ (resolveDonor it).quantity = it.quantity
          ∧ (resolveDonor it).expirationDate = it.expirationDate) := by
  intro s now hsum
  refine ⟨rfl, rfl, ?_, ?_, ?_⟩
  · simpa [handleSubmitPayload, buildSubmissionPayload] using hsum
  · simp [handleSubmitPayload, buildSubmissionPayload]
  · intro j it hj
    refine ⟨?_, rfl, rfl, rfl, rfl, rfl, rfl, rfl, rfl⟩
    simp [handleSubmitPayload, buildSubmissionPayload, List.getElem?_map, hj]

/-- An item using the custom donor sentinel. -/
def customItem : InventoryItem :=
  { id := .str "c1", category := .str "Bakery", donorName := .str "custom",
    customDonorText := .str "Local Farm", description := .str "bread",
    weightLbs := .num 1, quantity := .num 2,
    expirationDate := .str "2026-01-15" }

/-- A two-item session ready to submit, one item with a custom donor. -/
def submitState : SessionState :=
  { items := [customItem, wItemB],
    summary := computeSummary [customItem, wItemB], formId := "SK6",
    activeItemIndex := none, isLoading := false, statusMessage := none,
    processingItems := emptyFlags, toastMessage := none }

/-- C6 witness: the payload laws applied to a concrete two-item session;
the custom-donor item reaches the client with the free-text donor. -/
theorem claim_C6_submissionPayload_witness :
    (handleSubmitPayload submitState "2026-03-01T00:00:00.000Z").summary
      = computeSummary submitState.items
    ∧ (handleSubmitPayload submitState "2026-03-01T00:00:00.000Z").items[0]?
        = some (resolveDonor customItem)
    ∧ (resolveDonor customItem).donorName
        = (if customItem.donorName = .str "custom" then
            customItem.customDonorText else customItem.donorName)
    ∧ (resolveDonor customItem).donorName = .str "Local Farm" :=
  ⟨(claim_C6_submissionPayload submitState "2026-03-01T00:00:00.000Z"
      rfl).2.2.1,
   ((claim_C6_submissionPayload submitState "2026-03-01T00:00:00.000Z"
      rfl).2.2.2.2 0 customItem rfl).1,
   ((claim_C6_submissionPayload submitState "2026-03-01T00:00:00.000Z"
      rfl).2.2.2.2 0 customItem rfl).2.1,
   by decide⟩

lemma mergeAt_of_none (s : SessionState) (us : List (ItemField × JSVal))
    (h : s.activeItemIndex = none) : mergeAt s us = s := by
  unfold mergeAt
  rw [h]

lemma mergeAt_of_oob (s : SessionState) (us : List (ItemField × JSVal))
    (i : Nat) (h1 : s.activeItemIndex = some i)
    (h2 : s.items[i]? = none) : mergeAt s us = s := by
  unfold mergeAt
  rw [h1]
  dsimp only []
  rw [h2]

lemma mergeAt_items_of_some (s : SessionState)
    (us : List (ItemField × JSVal)) (i : Nat) (cur : InventoryItem)
    (h1 : s.activeItemIndex = some i) (h2 : s.items[i]? = some cur)
    (hf : ∀ u ∈ us, u.1 ≠ ItemField.id) :
    (mergeAt s us).items
      = s.items.map (fun it =>
          if it.id = cur.id then applyItemUpdates it us else it) := by
  unfold mergeAt
  rw [h1]
  dsimp only []
  rw [h2]
  dsimp only []
  exact applyUpdates_eq_map us s.items cur.id hf

/-- C1 (amended): the three merge handlers resolve their target by
position, reading `activeItemIndex` at merge time: when the index is
unset or out of range the merge is a no-op, and otherwise the
kind-specific field writes are applied to every item whose id equals the
id of the item currently occupying that index — after an earlier item's
deletion that occupant is not necessarily the originally targeted
item. -/
theorem claim_C1_mergeByPosition :
    ∀ (s : SessionState) (r : VoiceAnalysisResult)
      (ri : ImageAnalysisResult) (p : ProductInfo),
      (s.activeItemIndex = none →
        mergeVoiceResult s r = s ∧ mergeImageResult s ri = s
        ∧ mergeBarcodeResult s p = s)
      ∧ (∀ i : Nat, s.activeItemIndex = some i → s.items[i]? = none →
        mergeVoiceResult s r = s ∧ mergeImageResult s ri = s
        ∧ mergeBarcodeResult s p = s)
      ∧ (∀ (i : Nat) (cur : InventoryItem), s.activeItemIndex = some i →
          s.items[i]? = some cur →
          (mergeVoiceResult s r).items
            = s.items.map (fun it => if it.id = cur.id
                then applyItemUpdates it (voiceUpdates r) else it)
          ∧ (mergeImageResult s ri).items
            = s.items.map (fun it => if it.id = cur.id
                then applyItemUpdates it (imageUpdates ri) else it)
          ∧ (mergeBarcodeResult s p).items
            = s.items.map (fun it => if it.id = cur.id
                then applyItemUpdates it (barcodeUpdates p) else it)) := by
  intro s r ri p
  refine ⟨?_, ?_, ?_⟩
  · intro h
    exact ⟨mergeAt_of_none s _ h, mergeAt_of_none s _ h,
      mergeAt_of_none s _ h⟩
  · intro i h1 h2
    exact ⟨mergeAt_of_oob s _ i h1 h2, mergeAt_of_oob s _ i h1 h2,
      mergeAt_of_oob s _ i h1 h2⟩
  · intro i cur h1 h2
    exact ⟨mergeAt_items_of_some s _ i cur h1 h2 (voiceUpdates_not_id r),
      mergeAt_items_of_some s _ i cur h1 h2 (imageUpdates_not_id ri),
      mergeAt_items_of_some s _ i cur h1 h2 (barcodeUpdates_not_id p)⟩

/-- Three items A, B, C with distinct ids and marked descriptions. -/
def raceA : InventoryItem :=
  { getNewItem "a" "2026-01-01" with description := .str "A" }

def raceB : InventoryItem :=
  { getNewItem "b" "2026-01-01" with description := .str "B" }

def raceC : InventoryItem :=
  { getNewItem "c" "2026-01-01" with description := .str "C" }

/-- A three-item session before any modal is opened. -/
def raceState : SessionState :=
  { items := [raceA, raceB, raceC],
    summary := computeSummary [raceA, raceB, raceC], formId := "SK9",
    activeItemIndex := none, isLoading := false, statusMessage := none,
    processingItems := emptyFlags, toastMessage := none }

/-- A voice result that arrives after the user deleted item A. -/
def staleVoice : VoiceAnalysisResult :=
  { itemName := "Voice Result", category := "Dairy",
    estimatedWeightLbs := 2, quantity := none, donorName := none }

/-- C1 counterexample: open the voice modal on B (index 1) in [A, B, C],
delete A, then merge the voice result.  The result lands on C — the item
now occupying B's former index — while B itself is untouched, so the
merge neither applied to B by id nor acted as a no-op. -/
theorem claim_C1_counterexample :
    ((mergeVoiceResult
        (handleDeleteItem (openEnrichmentTarget raceState 1) (.str "a"))
        staleVoice).items.map (fun it => (it.id, it.description)))
      = [(.str "b", .str "B"), (.str "c", .str "Voice Result")] := by
  decide

/-- C1 witness: the amended positional-merge law evaluated on a concrete
session with the modal open on index 1, plus the no-op case on an unset
index. -/
theorem claim_C1_mergeByPosition_witness :
    (mergeVoiceResult (openEnrichmentTarget raceState 1) staleVoice).items
      = (openEnrichmentTarget raceState 1).items.map
          (fun it => if it.id = raceB.id
            then applyItemUpdates it (voiceUpdates staleVoice) else it)
    ∧ mergeVoiceResult raceState staleVoice = raceState :=
  ⟨((claim_C1_mergeByPosition (openEnrichmentTarget raceState 1) staleVoice
      { description := "Photo", category := "Meat", weightLbs := 1 }
      { name := "Beans", brand := none, category := none, weight := none,
        barcode := "0" }).2.2 1 raceB rfl rfl).1,
   ((claim_C1_mergeByPosition raceState staleVoice
      { description := "Photo", category := "Meat", weightLbs := 1 }
      { name := "Beans", brand := none, category := none, weight := none,
        barcode := "0" }).1 rfl).1⟩

lemma itemIds_mergeAt (s : SessionState) (us : List (ItemField × JSVal))
    (hf : ∀ u ∈ us, u.1 ≠ ItemField.id) :
    itemIds (mergeAt s us).items = itemIds s.items := by
  unfold mergeAt
  rcases h1 : s.activeItemIndex with _ | i
  · rfl
  · dsimp only []
    rcases h2 : s.items[i]? with _ | cur
    · rfl
    · dsimp only []
      exact itemIds_applyUpdates s.items cur.id us hf

/-- C10 counterexample: `updateField` with the `id` field itself can
collide two ids, so not every `updateField` call preserves pairwise
distinctness. -/
theorem claim_C10_counterexample :
    ¬ (itemIds (updateItems [wItemA, wItemB] (.str "a") .id
        (.str "b"))).Nodup := by
  decide

/-- C10 (amended): `addItem` appends the freshly generated id at the
end, preserving distinctness when the new id is fresh; `updateField`
preserves the id sequence (hence distinctness and order) for every
field other than `id` itself; `deleteItem` filters by id — a sublist,
so order and distinctness survive — is idempotent and drops the deleted
id's processing-flag entry; and the three enrichment merges preserve
the id sequence. -/
theorem claim_C10_sessionInvariants :
    (∀ (s : SessionState) (uuid expiration : String),
        (handleAddItem s uuid expiration).items
          = s.items ++ [getNewItem uuid expiration])
    ∧ (∀ (s : SessionState) (uuid expiration : String),
        (itemIds s.items).Nodup → JSVal.str uuid ∉ itemIds s.items →
        (itemIds (handleAddItem s uuid expiration).items).Nodup)
    ∧ (∀ (s : SessionState) (id : JSVal) (f : ItemField) (v : JSVal),
        f ≠ ItemField.id →
        itemIds (handleUpdateItem s id f v).items = itemIds s.items)
    ∧ (∀ (s : SessionState) (id : JSVal),
        List.Sublist (handleDeleteItem s id).items s.items)
    ∧ (∀ (s : SessionState) (id : JSVal), (itemIds s.items).Nodup →
        (itemIds (handleDeleteItem s id).items).Nodup)
    ∧ (∀ (s : SessionState) (id : JSVal),
        handleDeleteItem (handleDeleteItem s id) id = handleDeleteItem s id)
    ∧ (∀ (s : SessionState) (id : JSVal),
        (handleDeleteItem s id).processingItems id = none)
    ∧ (∀ (s : SessionState) (r : VoiceAnalysisResult),
        itemIds (mergeVoiceResult s r).items = itemIds s.items)
    ∧ (∀ (s : SessionState) (r : ImageAnalysisResult),
        itemIds (mergeImageResult s r).items = itemIds s.items)
    ∧ (∀ (s : SessionState) (p : ProductInfo),
        itemIds (mergeBarcodeResult s p).items = itemIds s.items) := by
  refine ⟨fun s uuid expiration => rfl, ?_, ?_, ?_, ?_, ?_, ?_, ?_, ?_, ?_⟩
  · intro s uuid expiration hnodup hfresh
    have heq : itemIds (handleAddItem s uuid expiration).items
        = itemIds s.items ++ [JSVal.str uuid] := by
      simp [handleAddItem, itemIds, getNewItem]
    rw [heq]
    exact hnodup.append (List.nodup_singleton _)
      (List.disjoint_singleton.mpr hfresh)
  · intro s id f v hf
    exact itemIds_updateItems s.items id f v hf
  · intro s id
    exact List.filter_sublist s.items
  · intro s id hnodup
    refine hnodup.sublist ?_
    show List.Sublist
      ((s.items.filter (fun it => decide (it.id ≠ id))).map (fun it => it.id))
      (s.items.map (fun it => it.id))
    exact (List.filter_sublist s.items).map (fun it => it.id)
  · intro s id
    simp [handleDeleteItem, SessionState.mk.injEq, filter_idem,
      eraseFlag_idem]
  · intro s id
    simp [handleDeleteItem, eraseFlag]
  · intro s r
    exact itemIds_mergeAt s (voiceUpdates r) (voiceUpdates_not_id r)
  · intro s r
    exact itemIds_mergeAt s (imageUpdates r) (imageUpdates_not_id r)
  · intro s p
    exact itemIds_mergeAt s (barcodeUpdates p) (barcodeUpdates_not_id p)

/-- C10 witness: the invariant laws evaluated on concrete sessions —
appending a fresh item keeps ids distinct, deleting is idempotent, and
a merge keeps the id sequence. -/
theorem claim_C10_sessionInvariants_witness :
    (itemIds (handleAddItem gateState "b" "2026-01-01").items).Nodup
    ∧ handleDeleteItem (handleDeleteItem submitState (.str "c1"))
        (.str "c1") = handleDeleteItem submitState (.str "c1")
    ∧ itemIds (mergeVoiceResult (openEnrichmentTarget raceState 1)
        staleVoice).items
      = itemIds (openEnrichmentTarget raceState 1).items :=
  ⟨claim_C10_sessionInvariants.2.1 gateState "b" "2026-01-01" (by decide)
      (by decide),
   claim_C10_sessionInvariants.2.2.2.2.2.1 submitState (.str "c1"),
   claim_C10_sessionInvariants.2.2.2.2.2.2.2.1
     (openEnrichmentTarget raceState 1) staleVoice⟩

/-- An item under the custom donor sentinel with blank free text. -/
def customGapItem : InventoryItem :=
  { customItem with customDonorText := .str "" }

/-- C7 witness: the validator laws evaluated on concrete items — an
irrelevant `customDonorText` under a non-custom donor, and the counted
gap under the custom sentinel with blank free text. -/
theorem claim_C7_validator_witness :
    itemIncompleteCount (setField summaryExampleA .customDonorText
        (.str "zz")) = itemIncompleteCount summaryExampleA
    ∧ 1 ≤ itemIncompleteCount customGapItem :=
  ⟨claim_C7_validator.2.2.2.2.2.2.2.2.2.1 summaryExampleA (.str "zz")
      (by decide),
   claim_C7_validator.2.2.2.2.2.2.2.2.2.2.1 customGapItem rfl (by decide)⟩

/-- C5 witness: the sum form evaluated on the spec's worked example. -/
theorem claim_C5_computeSummary_witness :
    computeSummary [summaryExampleA, summaryExampleB]
      = { totalItems := ([summaryExampleA, summaryExampleB].map
            (fun it => toNumOr0 it.quantity)).sum,
          totalWeightLbs := ([summaryExampleA, summaryExampleB].map
            (fun it => toNumOr0 it.weightLbs * toNumOr0 it.quantity)).sum } :=
  claim_C5_computeSummary.2.1 [summaryExampleA, summaryExampleB]

/-- C8 witness: the shape law evaluated at the input "500 g". -/
theorem claim_C8_parseWeight_witness :
    0 ≤ parseProductWeight "500 g"
    ∧ ∃ n : ℤ, parseProductWeight "500 g" = (n : ℚ) / 100 :=
  claim_C8_parseWeight.1 "500 g"

/-- C3 witness: the submit paths evaluated on a concrete session. -/
theorem claim_C3_submitPaths_witness :
    (handleSubmitSuccess busyState "n2" "2026-02-02").formId
      = busyState.formId
    ∧ (handleSubmitFailure busyState "oops").items = busyState.items :=
  ⟨(claim_C3_submitPaths busyState "n2" "2026-02-02" "oops").1.2.1,
   (claim_C3_submitPaths busyState "n2" "2026-02-02" "oops").2.2.1⟩
